import Mathlib

/-!
Verification of the `deboogie` debug-logging helpers (src/__init__.py).

The module provides three utilities:
  * `get_debug_logger` — a factory building a callable logger bound to a stream,
    with an attached pretty-printing variant (`.pp`) and references to the
    underlying `logging.Logger` object and `StreamHandler`;
  * `iterdebug` — a generator that logs each element of an iterable (through a
    fresh debug logger) before yielding it unchanged;
  * `tracewrap` — a decorator factory whose wrapper logs a formatted record of
    the call's inputs before invoking the wrapped function, and a formatted
    record of the return value after it returns.

Embedding choices:
  * PyStream contents are `List String` — the ordered chunks written; every
    `logger.debug(msg)` call ends in one `stream.write(str(msg) + "\n")`.
  * Python's `pprint.pformat` (and the indent-2 `PrettyPrinter(indent=2).pformat`
    used in `.pp`) are standard-library functions, so they appear as function
    parameters `pf`, `pf2 : PyObj → String` rather than being re-implemented.
  * Formatter messages are `Option String`: the default formatters return a
    string, `null_fmt` returns Python's `None` (modelled `none`); Python's
    `str(None)` is the text `"None"` (see `pyStr`).
  * Object identity (`is`) is modelled by an allocation counter threaded through
    the factories: each `logging.Logger(name)` / `StreamHandler(strm)`
    construction consumes a fresh id.
  * The wrapped function of `tracewrap` may fail, so it is
    `A → K → Except E B` (positional args `A`, keyword args `K`).
  * The wrapper body `trace` is embedded as an event trace (`traceEvents`)
    recording, in the source's control-flow order, the input-sink invocation,
    the call's outcome, and (on normal return only) the output-sink invocation;
    `runTraceSinks` replays the sink invocations against actual sink functions.
-/

/-- A Python value, as far as the formatters of this module inspect one:
strings, ints, tuples, `None`, function objects (identified by their repr
token), and dicts. -/
inductive PyObj where
  | pyNone : PyObj
  | pyStr : String → PyObj
  | pyInt : Int → PyObj
  | pyTuple : List PyObj → PyObj
  | pyFunc : String → PyObj
  | pyDict : List (PyObj × PyObj) → PyObj

/-- Python's `str` applied to a log message that is either a string or `None`:
`str(None) = "None"`, a string is unchanged.  The logging layer applies this
when formatting the record (`"%s\n" % msg`). -/
def pyStr : Option String → String
  | none => "None"
  | some s => s

/-- A destination stream: an object identity `sid` and the effect of `write`
on the stream's buffered contents (py2 `file.write` takes one string chunk). -/
structure PyStream where
  sid : Nat
  writeFn : String → List String → List String

/-- An ordinary stream (such as `sys.stderr` or `sys.stdout`): `write` appends
the chunk to the contents. -/
def plainStream (sid : Nat) : PyStream :=
  ⟨sid, fun s contents => contents ++ [s]⟩

/-- The default destination of `StreamHandler(strm=None)`: `sys.stderr`. -/
def stderr_stream : PyStream := plainStream 1

/-- The value returned by `get_debug_logger`: the `debug` callable together
with its attached attributes (`debug.logger`, `debug.handler`, `debug.pp`).
`loggerId` and `handlerId` are the identities of the freshly constructed
`Logger(name)` and `StreamHandler(strm)` objects. -/
structure LoggerHandle where
  name : String
  loggerId : Nat
  handlerId : Nat
  strm : PyStream

/-- Calling the `debug` callable: `logger.debug(msg)` — the logger has level
`NOTSET` and one `StreamHandler`, so every call is emitted as one
`stream.write(str(msg) + "\n")`. -/
def LoggerHandle.debugCall (h : LoggerHandle) (msg : Option String) (contents : List String) : List String :=
  h.strm.writeFn (pyStr msg ++ "\n") contents

/-- The attached pretty-printing variant `debug.pp`:
`lambda *args, **kwargs: debug(pformat(*args, **kwargs))` where `pformat` is
`PrettyPrinter(indent=2).pformat`, passed here as the parameter `pf2`. -/
def LoggerHandle.pp (h : LoggerHandle) (pf2 : PyObj → String) (v : PyObj) (contents : List String) : List String :=
  h.debugCall (some (pf2 v)) contents

/-- `get_debug_logger(name, strm)`: constructs a fresh `Logger(name)` (identity
`ctr`), a fresh `StreamHandler(strm)` (identity `ctr + 1`), attaches the
handler, and returns the `debug` callable bundled with those references;
the updated allocation counter is returned alongside. -/
def get_debug_logger (name : String) (strm : PyStream) (ctr : Nat) : LoggerHandle × Nat :=
  (⟨name, ctr, ctr + 1, strm⟩, ctr + 2)

/-- The `write` method of `NullStream` (`def write(*args): pass`): ignores all
arguments, leaves the buffered contents unchanged, returns Python `None`. -/
def NullStream.write (_args : List String) (contents : List String) : Option String × List String :=
  (none, contents)

/-- The single module-level `NullStream` instance `null_stream` (object
identity 0): its `write` is `NullStream.write`. -/
def null_stream : PyStream :=
  ⟨0, fun s contents => (NullStream.write [s] contents).2⟩

/-- `get_null_logger(name)`: `get_debug_logger(name, null_stream)` — every null
logger is bound to the shared module-level `null_stream`. -/
def get_null_logger (name : String) (ctr : Nat) : LoggerHandle × Nat :=
  get_debug_logger name null_stream ctr

/-- The module-level `null_log = get_null_logger('null')`, the first allocation
performed at import time. -/
def null_log : LoggerHandle := (get_null_logger "null" 0).1

/-- The module-level default sink of `tracewrap`:
`tracewrap_log = get_debug_logger('tracewrap')` — default stream, hence
`sys.stderr`; allocated at import time after `null_log`. -/
def tracewrap_log : LoggerHandle :=
  (get_debug_logger "tracewrap" stderr_stream (get_null_logger "null" 0).2).1

/-- One step of the `iterdebug` generator, as an event: a log line written
through the generator's debug logger, or an element yielded to the consumer. -/
inductive IterEv (α : Type) where
  | logLine : String → IterEv α
  | yieldEl : α → IterEv α

/-- The event trace of fully consuming `iterdebug(name, it, stringifier, strm)`:
for each element `i` of the input in order, first `debug(stringifier(i))`,
then `yield i`. -/
def iterdebugEvents {α : Type} (stringifier : α → String) : List α → List (IterEv α)
  | [] => []
  | i :: rest => IterEv.logLine (stringifier i) :: IterEv.yieldEl i :: iterdebugEvents stringifier rest

/-- The elements yielded, in order, of an `iterdebug` event trace. -/
def yieldedOf {α : Type} (evs : List (IterEv α)) : List α :=
  evs.filterMap (fun ev => match ev with
    | IterEv.yieldEl a => some a
    | IterEv.logLine _ => none)

/-- The lines logged, in order, of an `iterdebug` event trace. -/
def loggedOf {α : Type} (evs : List (IterEv α)) : List String :=
  evs.filterMap (fun ev => match ev with
    | IterEv.yieldEl _ => none
    | IterEv.logLine s => some s)

/-- Replays an `iterdebug` event trace against the generator's debug logger:
each `logLine s` is one `debug(s)` call on the stream, each `yieldEl a` hands
`a` to the consumer.  Returns the consumed elements and the final stream
contents. -/
def runIterSink {α : Type} (dbg : LoggerHandle) : List (IterEv α) → List String → List α × List String
  | [], contents => ([], contents)
  | IterEv.logLine s :: evs, contents => runIterSink dbg evs (dbg.debugCall (some s) contents)
  | IterEv.yieldEl a :: evs, contents =>
      let r := runIterSink dbg evs contents
      (a :: r.1, r.2)

/-- Full consumption of `iterdebug(name, it, stringifier, strm)`: creates the
debug logger (`get_debug_logger(name, strm=strm)`, allocation counter `ctr`)
and replays the generator's events against it. -/
def iterdebugRun {α : Type} (name : String) (stringifier : α → String) (strm : PyStream)
    (ctr : Nat) (it : List α) (contents : List String) : List α × List String :=
  runIterSink (get_debug_logger name strm ctr).1 (iterdebugEvents stringifier it) contents

/-- `tuplabel(name, f=None)`: the produced `label(tup)` applies `f` to `tup`
when `f` is truthy (a supplied function), then pairs the result with `name`. -/
def tuplabel (name : String) (f : Option (PyObj → PyObj)) : PyObj → PyObj :=
  fun tup =>
    let tup1 := match f with
      | some g => g tup
      | none => tup
    PyObj.pyTuple [PyObj.pyStr name, tup1]

/-- `null_fmt = lambda *a, **k: None` — a formatter returning Python `None`. -/
def null_fmt {α : Type} (_a : α) : Option String := none

/-- The invocation-start record built by `trace`:
`(('function', f), ('args', args), ('kwargs', kwargs))`.  The function object
is identified by `fname`, its repr token. -/
structure FRec (A K : Type) where
  fname : String
  args : A
  kwargs : K

/-- The `FRec` record as the Python tuple the default input formatter pformats. -/
def frecObj {A K : Type} (encA : A → PyObj) (encK : K → PyObj) (r : FRec A K) : PyObj :=
  PyObj.pyTuple
    [PyObj.pyTuple [PyObj.pyStr "function", PyObj.pyFunc r.fname],
     PyObj.pyTuple [PyObj.pyStr "args", encA r.args],
     PyObj.pyTuple [PyObj.pyStr "kwargs", encK r.kwargs]]

/-- The default input formatter of `tracewrap`:
`lambda a: pformat(tuplabel('->')(a))` (`pf` is `pprint.pformat`;
`encA`, `encK` encode the positional and keyword arguments as Python values). -/
def default_infmt {A K : Type} (pf : PyObj → String) (encA : A → PyObj) (encK : K → PyObj)
    (r : FRec A K) : Option String :=
  some (pf (tuplabel "->" none (frecObj encA encK r)))

/-- The default output formatter of `tracewrap`:
`lambda a: pformat(tuplabel('<-')(a))` applied to the return value. -/
def default_outfmt {B : Type} (pf : PyObj → String) (encB : B → PyObj) (ret : B) : Option String :=
  some (pf (tuplabel "<-" none (encB ret)))

/-- One observable event of the wrapper `trace` produced by
`tracewrap(infmt, outfmt, inlog, outlog)(f)`: the input sink invoked with the
input formatter's result, the wrapped call returning or raising, and the
output sink invoked with the output formatter's result. -/
inductive TraceEv (B E : Type) where
  | inWrite : Option String → TraceEv B E
  | callReturned : B → TraceEv B E
  | callRaised : E → TraceEv B E
  | outWrite : Option String → TraceEv B E

/-- The wrapper body `trace(*args, **kwargs)` of `tracewrap`, as its result and
event trace, in the source's order:
`inlog(infmt((('function', f), ('args', args), ('kwargs', kwargs))))` is
executed first, unconditionally; then `ret = f(*args, **kwargs)`; if `f`
returns, `outlog(outfmt(ret))` runs and `ret` is returned; if `f` raises, the
exception propagates and the output step is skipped. -/
def traceEvents {A K B E : Type} (infmt : FRec A K → Option String) (outfmt : B → Option String)
    (fname : String) (f : A → K → Except E B) (args : A) (kwargs : K) :
    Except E B × List (TraceEv B E) :=
  let inMsg := infmt ⟨fname, args, kwargs⟩
  match f args kwargs with
  | Except.ok ret =>
      (Except.ok ret, [TraceEv.inWrite inMsg, TraceEv.callReturned ret, TraceEv.outWrite (outfmt ret)])
  | Except.error e =>
      (Except.error e, [TraceEv.inWrite inMsg, TraceEv.callRaised e])

/-- Replays a wrapper event trace against concrete input/output sinks, yielding
the final contents of the (shared) destination log. -/
def runTraceSinks {B E : Type} (inlog outlog : Option String → List String → List String) :
    List (TraceEv B E) → List String → List String
  | [], log => log
  | TraceEv.inWrite m :: evs, log => runTraceSinks inlog outlog evs (inlog m log)
  | TraceEv.outWrite m :: evs, log => runTraceSinks inlog outlog evs (outlog m log)
  | TraceEv.callReturned _ :: evs, log => runTraceSinks inlog outlog evs log
  | TraceEv.callRaised _ :: evs, log => runTraceSinks inlog outlog evs log

/-- One call of the wrapper produced by `tracewrap(infmt, outfmt, inlog, outlog)`
applied to `f`: the returned (or raised) value together with the destination
log after the sink invocations. -/
def tracewrapRun {A K B E : Type} (infmt : FRec A K → Option String) (outfmt : B → Option String)
    (inlog outlog : Option String → List String → List String)
    (fname : String) (f : A → K → Except E B) (args : A) (kwargs : K)
    (log : List String) : Except E B × List String :=
  let r := traceEvents infmt outfmt fname f args kwargs
  (r.1, runTraceSinks inlog outlog r.2 log)

/-- Modelled from the spec: the exception path of the write performed by the
logger is inside the standard library (`logging.Logger.debug` down to
`logging.StreamHandler.emit` and the destination stream's `write`), which is
not part of src/.  Per the spec, "write failures from the destination stream
propagate unmodified to the caller of the logger": the `debug` callable
produced by `get_debug_logger` is a direct delegation with no exception
handling anywhere in src/, so a failing destination write makes the logger
call fail with the very same error.  `writeF` is the fallible write of the
destination stream. -/
def debugCallFallible {E : Type} (writeF : String → List String → Except E (List String))
    (msg : Option String) (contents : List String) : Except E (List String) :=
  writeF (pyStr msg ++ "\n") contents

/- Helper lemmas (shared; not tied to a single claim). -/

/-- Replaying an iterdebug event trace hands the consumer exactly the yielded
elements of the trace, whatever the logger. -/
theorem runIterSink_fst {α : Type} (dbg : LoggerHandle) (evs : List (IterEv α))
    (contents : List String) : (runIterSink dbg evs contents).1 = yieldedOf evs := by
  induction evs generalizing contents with
  | nil => rfl
  | cons ev evs ih =>
    cases ev with
    | logLine s => simp [runIterSink, yieldedOf, List.filterMap, ih]
    | yieldEl a => simp [runIterSink, yieldedOf, List.filterMap, ih]

/-- Replaying an iterdebug event trace against a logger on an ordinary stream
appends exactly the logged lines, each with a trailing newline, in order. -/
theorem runIterSink_snd_plain {α : Type} (name : String) (i j sid : Nat)
    (evs : List (IterEv α)) (contents : List String) :
    (runIterSink ⟨name, i, j, plainStream sid⟩ evs contents).2
      = contents ++ (loggedOf evs).map (fun s => s ++ "\n") := by
  induction evs generalizing contents with
  | nil => simp [runIterSink, loggedOf]
  | cons ev evs ih =>
    cases ev with
    | logLine s =>
      have h1 : runIterSink ⟨name, i, j, plainStream sid⟩ (IterEv.logLine s :: evs) contents
          = runIterSink ⟨name, i, j, plainStream sid⟩ evs (contents ++ [s ++ "\n"]) := rfl
      rw [h1, ih]
      simp [loggedOf, List.filterMap]
    | yieldEl a =>
      simp [runIterSink, loggedOf, List.filterMap, ih]

/-- Replaying an iterdebug event trace only reads the logger's stream: two
handles over the same stream produce identical results. -/
theorem runIterSink_name_irrelevant {α : Type} (d1 d2 : LoggerHandle)
    (h : d1.strm = d2.strm) (evs : List (IterEv α)) (contents : List String) :
    runIterSink d1 evs contents = runIterSink d2 evs contents := by
  induction evs generalizing contents with
  | nil => rfl
  | cons ev evs ih =>
    cases ev with
    | logLine s => simp [runIterSink, LoggerHandle.debugCall, h, ih]
    | yieldEl a => simp [runIterSink, ih]

/-- The iterdebug event trace interleaves, for each input element in order,
one log event immediately followed by that element's yield. -/
theorem iterdebugEvents_eq_flatMap {α : Type} (stringifier : α → String) (it : List α) :
    iterdebugEvents stringifier it
      = it.flatMap (fun i => [IterEv.logLine (stringifier i), IterEv.yieldEl i]) := by
  induction it with
  | nil => rfl
  | cons i rest ih => simp [iterdebugEvents, ih]

/-- The yields of the iterdebug event trace are exactly the input elements. -/
theorem yieldedOf_iterdebugEvents {α : Type} (stringifier : α → String) (it : List α) :
    yieldedOf (iterdebugEvents stringifier it) = it := by
  induction it with
  | nil => rfl
  | cons i rest ih => simp [iterdebugEvents, yieldedOf, List.filterMap] at ih ⊢; exact ih

/-- The logged lines of the iterdebug event trace are exactly the stringified
input elements, in order. -/
theorem loggedOf_iterdebugEvents {α : Type} (stringifier : α → String) (it : List α) :
    loggedOf (iterdebugEvents stringifier it) = it.map stringifier := by
  induction it with
  | nil => rfl
  | cons i rest ih => simp [iterdebugEvents, loggedOf, List.filterMap] at ih ⊢; exact ih

/-- C1: for every function `f` and arguments, the wrapper produced by
`tracewrap()` with the default formatters and sinks returns exactly the value
`f(*args, **kwargs)` returns, and during the call exactly one input record and
one output record are written — the event trace is input write, call return,
output write, and with the default sink (`tracewrap_log`) the stream receives
exactly the two formatted lines, input line first. -/
theorem C1_tracewrap_default_call {A K B E : Type} (pf : PyObj → String)
    (encA : A → PyObj) (encK : K → PyObj) (encB : B → PyObj)
    (fname : String) (f : A → K → B) (args : A) (kwargs : K) (log : List String) :
    (traceEvents (E := E) (default_infmt pf encA encK) (default_outfmt pf encB) fname
        (fun a k => Except.ok (f a k)) args kwargs).1 = Except.ok (f args kwargs) ∧
    (traceEvents (E := E) (default_infmt pf encA encK) (default_outfmt pf encB) fname
        (fun a k => Except.ok (f a k)) args kwargs).2
      = [TraceEv.inWrite (default_infmt pf encA encK ⟨fname, args, kwargs⟩),
         TraceEv.callReturned (f args kwargs),
         TraceEv.outWrite (default_outfmt pf encB (f args kwargs))] ∧
    (tracewrapRun (E := E) (default_infmt pf encA encK) (default_outfmt pf encB)
        tracewrap_log.debugCall tracewrap_log.debugCall fname
        (fun a k => Except.ok (f a k)) args kwargs log).2
      = log ++ [pf (tuplabel "->" none (frecObj encA encK ⟨fname, args, kwargs⟩)) ++ "\n",
                pf (tuplabel "<-" none (encB (f args kwargs))) ++ "\n"] := by
  refine ⟨rfl, rfl, ?_⟩
  simp [tracewrapRun, traceEvents, runTraceSinks, tracewrap_log, get_debug_logger,
    get_null_logger, LoggerHandle.debugCall, stderr_stream, plainStream,
    default_infmt, default_outfmt, pyStr]

/-- C2: for every finite input, `iterdebug` yields the input sequence exactly,
element for element and in order; each element's stringified form is logged
(one line, in consumption order, through the created debug logger) immediately
before the element is yielded, so on an ordinary stream the written text is
exactly the stringified elements, one line each, in order. -/
theorem C2_iterdebug_identity {α : Type} (stringifier : α → String) (it : List α)
    (name : String) (strm : PyStream) (ctr : Nat) (contents : List String) (sid : Nat) :
    yieldedOf (iterdebugEvents stringifier it) = it ∧
    loggedOf (iterdebugEvents stringifier it) = it.map stringifier ∧
    iterdebugEvents stringifier it
      = it.flatMap (fun i => [IterEv.logLine (stringifier i), IterEv.yieldEl i]) ∧
    (iterdebugRun name stringifier strm ctr it contents).1 = it ∧
    (iterdebugRun name stringifier (plainStream sid) ctr it contents).2
      = contents ++ (it.map stringifier).map (fun s => s ++ "\n") := by
  refine ⟨yieldedOf_iterdebugEvents stringifier it, loggedOf_iterdebugEvents stringifier it,
    iterdebugEvents_eq_flatMap stringifier it, ?_, ?_⟩
  · rw [iterdebugRun, runIterSink_fst, yieldedOf_iterdebugEvents]
  · rw [iterdebugRun, get_debug_logger, runIterSink_snd_plain, loggedOf_iterdebugEvents]

/-- C3 counterexample: with both formatters `null_fmt` and the default sinks
(`tracewrap_log` on both sides), a call of the wrapped function does write to
the sink — the tracer invokes `inlog`/`outlog` unconditionally with the
formatter's `None`, and the default sink logs the line `None` each time — so
the log is not left unchanged, contradicting the claim that no writes occur. -/
theorem C3_counterexample :
    (tracewrapRun (A := Nat) (K := Unit) (B := Nat) (E := Unit) null_fmt null_fmt
        tracewrap_log.debugCall tracewrap_log.debugCall
        "f" (fun a _ => Except.ok a) 1 () []).2 = ["None\n", "None\n"] ∧
    (["None\n", "None\n"] : List String) ≠ [] := by
  refine ⟨rfl, ?_⟩
  decide

/-- C3 amended: when both formatters return the nothing-to-log value `None`
(as `null_fmt` does), the wrapper still invokes both sinks, passing them that
value — the tracer performs no suppression itself — so no write occurs only
when the sinks themselves discard (as `null_log` does); with the default sinks
each invocation writes the line `None`.  The wrapped function's return value
is delivered to the caller unchanged in every case. -/
theorem C3_null_fmt_sinks_still_invoked {A K B E : Type}
    (inlog outlog : Option String → List String → List String)
    (fname : String) (f : A → K → B) (args : A) (kwargs : K) (log : List String) :
    (tracewrapRun (E := E) null_fmt null_fmt inlog outlog fname
        (fun a k => Except.ok (f a k)) args kwargs log).1 = Except.ok (f args kwargs) ∧
    (tracewrapRun (E := E) null_fmt null_fmt inlog outlog fname
        (fun a k => Except.ok (f a k)) args kwargs log).2 = outlog none (inlog none log) ∧
    (tracewrapRun (E := E) null_fmt null_fmt null_log.debugCall null_log.debugCall fname
        (fun a k => Except.ok (f a k)) args kwargs log).2 = log ∧
    (tracewrapRun (E := E) null_fmt null_fmt tracewrap_log.debugCall tracewrap_log.debugCall
        fname (fun a k => Except.ok (f a k)) args kwargs log).2 = log ++ ["None\n", "None\n"] := by
  refine ⟨rfl, rfl, rfl, ?_⟩
  simp [tracewrapRun, traceEvents, runTraceSinks, tracewrap_log, get_debug_logger,
    get_null_logger, LoggerHandle.debugCall, stderr_stream, plainStream, null_fmt, pyStr]

/-- C4: if the wrapped function raises, the wrapper propagates that exception
unchanged to the caller; the input record was written (the input-sink
invocation precedes the call in the event trace) and the output sink is never
invoked — the final log is exactly the input-sink write. -/
theorem C4_exception_propagation {A K B E : Type}
    (infmt : FRec A K → Option String) (outfmt : B → Option String)
    (inlog outlog : Option String → List String → List String)
    (fname : String) (f : A → K → Except E B) (args : A) (kwargs : K)
    (e : E) (log : List String) (h : f args kwargs = Except.error e) :
    traceEvents infmt outfmt fname f args kwargs
      = (Except.error e,
         [TraceEv.inWrite (infmt ⟨fname, args, kwargs⟩), TraceEv.callRaised e]) ∧
    tracewrapRun infmt outfmt inlog outlog fname f args kwargs log
      = (Except.error e, inlog (infmt ⟨fname, args, kwargs⟩) log) := by
  constructor <;> simp [traceEvents, tracewrapRun, runTraceSinks, h]

theorem C4_exception_propagation_witness :
    ((fun (_ : Unit) (_ : Unit) => (Except.error 7 : Except Nat Nat)) () ()
        = Except.error 7) ∧
    (traceEvents null_fmt null_fmt "f"
        (fun (_ : Unit) (_ : Unit) => (Except.error 7 : Except Nat Nat)) () ()
        = (Except.error 7, [TraceEv.inWrite none, TraceEv.callRaised 7]) ∧
      tracewrapRun null_fmt null_fmt (fun m l => l ++ [pyStr m]) (fun m l => l ++ [pyStr m])
        "f" (fun (_ : Unit) (_ : Unit) => (Except.error 7 : Except Nat Nat)) () () []
        = (Except.error 7, ["None"])) :=
  ⟨rfl, C4_exception_propagation _ _ _ _ _ _ _ _ _ _ rfl⟩

/-- C5: the factory never memoizes: two successive calls to
`get_debug_logger`, with any names (equal ones included) and any streams,
construct `Logger` objects with distinct identities. -/
theorem C5_logger_not_memoized (n1 n2 : String) (s1 s2 : PyStream) (ctr : Nat) :
    ((get_debug_logger n1 s1 ctr).1).loggerId
      ≠ ((get_debug_logger n2 s2 (get_debug_logger n1 s1 ctr).2).1).loggerId := by
  simp [get_debug_logger]

/-- C6: a failing write of the destination stream surfaces unmodified from the
logger call — the logger delegates directly to the write path and src/ adds no
exception handling, so the caller sees the very same error. -/
theorem C6_write_failure_propagates {E : Type}
    (writeF : String → List String → Except E (List String))
    (msg : Option String) (contents : List String) (e : E)
    (h : writeF (pyStr msg ++ "\n") contents = Except.error e) :
    debugCallFallible writeF msg contents = Except.error e := h

theorem C6_write_failure_propagates_witness :
    ((fun (_ : String) (_ : List String) => (Except.error 3 : Except Nat (List String)))
        (pyStr (some "msg") ++ "\n") [] = Except.error 3) ∧
    debugCallFallible
        (fun (_ : String) (_ : List String) => (Except.error 3 : Except Nat (List String)))
        (some "msg") []
      = Except.error 3 :=
  ⟨rfl, C6_write_failure_propagates _ _ _ _ rfl⟩

/-- C7: the pretty-print callable attached by `get_debug_logger` logs, through
the very same logger, exactly the indent-2 pformat of its argument — and on an
ordinary stream that is one written line holding that pformat output. -/
theorem C7_pp_wiring (pf2 : PyObj → String) (name : String) (strm : PyStream)
    (ctr sid : Nat) (v : PyObj) (contents : List String) :
    ((get_debug_logger name strm ctr).1).pp pf2 v contents
      = ((get_debug_logger name strm ctr).1).debugCall (some (pf2 v)) contents ∧
    ((get_debug_logger name (plainStream sid) ctr).1).pp pf2 v contents
      = contents ++ [pf2 v ++ "\n"] :=
  ⟨rfl, rfl⟩

/-- C8: `tuplabel(n)` maps `t` to the pair `(n, t)`; with a supplied transform
`g`, `tuplabel(n, g)` maps `t` to `(n, g t)`; hence the default `tracewrap`
input formatter produces the pformat of the pair `('->', record)` and the
default output formatter the pformat of `('<-', return value)`. -/
theorem C8_tuplabel_and_defaults {A K B : Type} (n : String) (g : PyObj → PyObj) (t : PyObj)
    (pf : PyObj → String) (encA : A → PyObj) (encK : K → PyObj) (encB : B → PyObj)
    (r : FRec A K) (v : B) :
    tuplabel n none t = PyObj.pyTuple [PyObj.pyStr n, t] ∧
    tuplabel n (some g) t = PyObj.pyTuple [PyObj.pyStr n, g t] ∧
    default_infmt pf encA encK r
      = some (pf (PyObj.pyTuple [PyObj.pyStr "->", frecObj encA encK r])) ∧
    default_outfmt pf encB v = some (pf (PyObj.pyTuple [PyObj.pyStr "<-", encB v])) :=
  ⟨rfl, rfl, rfl, rfl⟩

/-- C9: `NullStream.write` ignores every argument, leaves the buffered
contents unchanged and returns `None`; every logger built by
`get_null_logger` therefore discards all log output, and all null loggers are
bound to the single module-level `null_stream` instance (as is `null_log`). -/
theorem C9_nullstream_discards (ws contents : List String) (n1 n2 : String) (c1 c2 : Nat)
    (msg : Option String) (s : List String) :
    NullStream.write ws contents = (none, contents) ∧
    ((get_null_logger n1 c1).1).strm.sid = null_stream.sid ∧
    ((get_null_logger n1 c1).1).strm.sid = ((get_null_logger n2 c2).1).strm.sid ∧
    ((get_null_logger n1 c1).1).debugCall msg s = s ∧
    null_log.strm.sid = null_stream.sid :=
  ⟨rfl, rfl, rfl, rfl, rfl⟩

/-- C10: the name argument is trace-invisible — a logger from
`get_debug_logger`, and a full `iterdebug` run, write byte-for-byte identical
text to the same destination stream when only the name differs (the yielded
elements are identical too). -/
theorem C10_name_invisible {α : Type} (n1 n2 : String) (strm : PyStream) (ctr : Nat)
    (msg : Option String) (c : List String) (st : α → String) (it : List α)
    (contents : List String) :
    ((get_debug_logger n1 strm ctr).1).debugCall msg c
      = ((get_debug_logger n2 strm ctr).1).debugCall msg c ∧
    iterdebugRun n1 st strm ctr it contents = iterdebugRun n2 st strm ctr it contents := by
  refine ⟨rfl, ?_⟩
  show runIterSink (⟨n1, ctr, ctr + 1, strm⟩ : LoggerHandle) (iterdebugEvents st it) contents
      = runIterSink (⟨n2, ctr, ctr + 1, strm⟩ : LoggerHandle) (iterdebugEvents st it) contents
  exact runIterSink_name_irrelevant ⟨n1, ctr, ctr + 1, strm⟩ ⟨n2, ctr, ctr + 1, strm⟩ rfl _ _
